import Mathlib

set_option maxRecDepth 100000

/-
Verification development for the poly packet forwarder (src/poly_pkt_fwd.c).

The relevant parts of the C program are shallowly embedded below:
machine integers become Nat with explicit reductions modulo 2^8 / 2^16 / 2^32
at the points where the C code truncates, byte buffers become lists of Nat,
and the external collaborators (HAL radio, GPS library, JSON parser, base64
codec, sockets) are parametrised away: their outputs appear as explicit
arguments or as already-decoded record fields, exactly at the boundary where
the C code consumes them.
-/

/-! ## CRC functions (poly_pkt_fwd.c lines 962-1000)

`crc_ccit`: polynomial 0x1021, init 0xFFFF, byte xored into the high half.
`crc8_ccit`: polynomial 0x87, init 0xFF.  Both iterate 8 shift rounds per
byte; the 16-bit (resp. 8-bit) truncation of the C `uint16_t`/`uint8_t`
arithmetic is made explicit with `% 65536` / `% 256`. -/

def crc16_update (x b : Nat) : Nat :=
  (List.range 8).foldl
    (fun y _ => if y &&& 0x8000 ≠ 0 then ((y <<< 1) ^^^ 0x1021) % 65536 else (y <<< 1) % 65536)
    ((x ^^^ (b <<< 8)) % 65536)

def crc_ccit (data : List Nat) : Nat :=
  data.foldl crc16_update 0xFFFF

def crc8_update (x b : Nat) : Nat :=
  (List.range 8).foldl
    (fun y _ => if y &&& 0x80 ≠ 0 then ((y <<< 1) ^^^ 0x87) % 256 else (y <<< 1) % 256)
    ((x ^^^ b) % 256)

def crc8_ccit (data : List Nat) : Nat :=
  data.foldl crc8_update 0xFF

/-! ## Little-endian byte extraction helpers (C `0xFF & (v >> 8k)`) -/

def byte0 (v : Nat) : Nat := v % 256

def byte1 (v : Nat) : Nat := (v / 256) % 256

def byte2 (v : Nat) : Nat := (v / 65536) % 256

def byte3 (v : Nat) : Nat := (v / 16777216) % 256

/-! ## Beacon payload construction (thread_down, lines 2036-2088 and 2125-2140)

At thread start the 17-byte beacon payload is filled in as follows
(lines 2062-2088): bytes 0..2 hold the network id 0xC0FFEE little-endian,
byte 8 holds the zero info field, bytes 9..11 hold the latitude field,
bytes 12..14 the longitude field, and bytes 15..16 the 16-bit CRC of bytes
8..14.  Bytes 3..7 of the stack buffer are never written during setup
(the code comments at lines 2065-2066 reserve 3..6 for the time and 7 for
crc1); they are modelled as the parameters `g3..g7`.  `lat`/`lon` are the
32-bit two's-complement bit patterns of the C `int32_t` values
`field_latitude`/`field_longitude` after the clamp/wrap of lines 2069-2075
(that floating-point mapping is outside the claims considered here). -/

def beaconSetupPayload (lat lon g3 g4 g5 g6 g7 : Nat) : List Nat :=
  let front : List Nat :=
    [0xEE, 0xFF, 0xC0, g3, g4, g5, g6, g7, 0,
     byte0 lat, byte1 lat, byte2 lat,
     byte0 lon, byte1 lon, byte2 lon]
  let crc2 := crc_ccit (front.drop 8)
  front ++ [byte0 crc2, byte1 crc2]

/-- Per-PPS beacon finalisation, lines 2129-2140: `field_time` is the
`uint32_t` value `utc.tv_sec + 1`; the code stores its four little-endian
bytes into payload positions 9..12 and then recomputes the 8-bit CRC of
bytes 0..6 into byte 7. -/
def beaconLoadTime (p : List Nat) (tvSec : Nat) : List Nat :=
  let ft := (tvSec + 1) % 4294967296
  let q := (((p.set 9 (byte0 ft)).set 10 (byte1 ft)).set 11 (byte2 ft)).set 12 (byte3 ft)
  q.set 7 (crc8_ccit (q.take 7))

/-- C1: the built beacon, at concrete inputs `field_latitude = 0x123456`,
`field_longitude = 0x654321`, `utc.tv_sec = 999` (so `field_time = 1000 =
0x3E8`) and zero initial garbage in bytes 3..7.  The code writes the
little-endian bytes of `field_time` into payload positions 9..12 —
overwriting the latitude bytes 9..11 and the longitude byte 12 — and leaves
bytes 3..6 at their setup values, contradicting the claim that bytes 3..6
carry the time and that latitude/longitude stay unchanged. -/
theorem beacon_field_time_misplaced :
    (beaconLoadTime (beaconSetupPayload 0x123456 0x654321 0 0 0 0 0) 999).getD 9 0 = 0xE8 ∧
    (beaconLoadTime (beaconSetupPayload 0x123456 0x654321 0 0 0 0 0) 999).getD 10 0 = 0x03 ∧
    (beaconLoadTime (beaconSetupPayload 0x123456 0x654321 0 0 0 0 0) 999).getD 11 0 = 0x00 ∧
    (beaconLoadTime (beaconSetupPayload 0x123456 0x654321 0 0 0 0 0) 999).getD 12 0 = 0x00 ∧
    (beaconLoadTime (beaconSetupPayload 0x123456 0x654321 0 0 0 0 0) 999).getD 3 0 = 0 ∧
    (beaconLoadTime (beaconSetupPayload 0x123456 0x654321 0 0 0 0 0) 999).getD 4 0 = 0 ∧
    (beaconLoadTime (beaconSetupPayload 0x123456 0x654321 0 0 0 0 0) 999).getD 5 0 = 0 ∧
    (beaconLoadTime (beaconSetupPayload 0x123456 0x654321 0 0 0 0 0) 999).getD 6 0 = 0 ∧
    (beaconSetupPayload 0x123456 0x654321 0 0 0 0 0).getD 9 0 = 0x56 ∧
    (beaconLoadTime (beaconSetupPayload 0x123456 0x654321 0 0 0 0 0) 999).getD 9 0 ≠ 0x56 := by
  decide

/-- C2: at the same concrete beacon, byte 7 of the transmitted payload does
equal the 8-bit CRC of transmitted bytes 0..6 (it is recomputed after the
time is loaded), but bytes 15..16 hold the 16-bit CRC of the *setup-time*
bytes 8..14 (computed at line 2086, before the per-PPS overwrite of bytes
9..12), which differs from the CRC of the bytes 8..14 actually handed to
the radio. -/
theorem beacon_crc16_stale :
    (beaconLoadTime (beaconSetupPayload 0x123456 0x654321 0 0 0 0 0) 999).getD 7 0 =
      crc8_ccit ((beaconLoadTime (beaconSetupPayload 0x123456 0x654321 0 0 0 0 0) 999).take 7) ∧
    (beaconLoadTime (beaconSetupPayload 0x123456 0x654321 0 0 0 0 0) 999).getD 15 0 + 256 *
        (beaconLoadTime (beaconSetupPayload 0x123456 0x654321 0 0 0 0 0) 999).getD 16 0 ≠
      crc_ccit (((beaconLoadTime (beaconSetupPayload 0x123456 0x654321 0 0 0 0 0) 999).drop 8).take 7) ∧
    (beaconLoadTime (beaconSetupPayload 0x123456 0x654321 0 0 0 0 0) 999).getD 15 0 + 256 *
        (beaconLoadTime (beaconSetupPayload 0x123456 0x654321 0 0 0 0 0) 999).getD 16 0 =
      crc_ccit (((beaconSetupPayload 0x123456 0x654321 0 0 0 0 0).drop 8).take 7) := by
  decide

/-! ## Upstream packet filtering and serialization (thread_up, lines 1643-1889)

The RX packet fields the cited code inspects.  `status` mirrors the HAL
status codes (`STAT_CRC_OK` / `STAT_CRC_BAD` / `STAT_NO_CRC` plus any other
value); `modulation` mirrors `MOD_LORA` / `MOD_FSK` plus any other value.
The LoRa `datarate` / `bandwidth` / `coderate` switches compare against
abstract HAL constants, so they are modelled as enumerations with an `other`
constructor for every value outside the handled cases.  `size` is the
`uint16_t` payload size. -/

inductive RxStatus
  | crcOk
  | crcBad
  | noCrc
  | other (code : Nat)
deriving DecidableEq

inductive RxMod
  | lora
  | fsk
  | other (code : Nat)
deriving DecidableEq

inductive LoraDR
  | sf7
  | sf8
  | sf9
  | sf10
  | sf11
  | sf12
  | other (code : Nat)
deriving DecidableEq

inductive LoraBW
  | bw125
  | bw250
  | bw500
  | other (code : Nat)
deriving DecidableEq

inductive LoraCR
  | cr4over5
  | cr4over6
  | cr4over7
  | cr4over8
  | crZero
  | other (code : Nat)
deriving DecidableEq

structure RxPkt where
  status : RxStatus
  modulation : RxMod
  datarate : LoraDR
  bandwidth : LoraBW
  coderate : LoraCR
  size : Nat
deriving DecidableEq

/-- CRC-forwarding configuration, globals `fwd_valid_pkt` /
`fwd_error_pkt` / `fwd_nocrc_pkt` (lines 129-131). -/
structure FwdPolicy where
  fwd_valid_pkt : Bool
  fwd_error_pkt : Bool
  fwd_nocrc_pkt : Bool
deriving DecidableEq

/-- Source defaults (lines 129-131). -/
def defaultFwdPolicy : FwdPolicy := ⟨true, false, false⟩

/-- Upstream measurement counters touched by the filtering code
(lines 181-187); all `uint32_t`. -/
structure UpMeas where
  nb_rx_rcv : Nat
  nb_rx_ok : Nat
  nb_rx_bad : Nat
  nb_rx_nocrc : Nat
  up_pkt_fwd : Nat
  up_payload_byte : Nat
deriving DecidableEq

/-- `uint32_t` wraparound. -/
def u32 (n : Nat) : Nat := n % 4294967296

/-- Per-packet filtering step, lines 1644-1676: `meas_nb_rx_rcv` is bumped
for every packet, then the status switch bumps the per-status counter and
decides whether the packet is skipped; a packet that survives bumps
`meas_up_pkt_fwd` and `meas_up_payload_byte` and is serialized.  The
returned Bool is true iff the packet goes into the datagram. -/
def upFilterStep (pol : FwdPolicy) (m : UpMeas) (p : RxPkt) : UpMeas × Bool :=
  let m := { m with nb_rx_rcv := u32 (m.nb_rx_rcv + 1) }
  match p.status with
  | .crcOk =>
    let m := { m with nb_rx_ok := u32 (m.nb_rx_ok + 1) }
    if !pol.fwd_valid_pkt then (m, false)
    else ({ m with up_pkt_fwd := u32 (m.up_pkt_fwd + 1),
                   up_payload_byte := u32 (m.up_payload_byte + p.size) }, true)
  | .crcBad =>
    let m := { m with nb_rx_bad := u32 (m.nb_rx_bad + 1) }
    if !pol.fwd_error_pkt then (m, false)
    else ({ m with up_pkt_fwd := u32 (m.up_pkt_fwd + 1),
                   up_payload_byte := u32 (m.up_payload_byte + p.size) }, true)
  | .noCrc =>
    let m := { m with nb_rx_nocrc := u32 (m.nb_rx_nocrc + 1) }
    if !pol.fwd_nocrc_pkt then (m, false)
    else ({ m with up_pkt_fwd := u32 (m.up_pkt_fwd + 1),
                   up_payload_byte := u32 (m.up_payload_byte + p.size) }, true)
  | .other _ => (m, false)

/-- The forwarding policy as the specification states it: `CRC_OK` iff
`forward_crc_valid`, `CRC_BAD` iff `forward_crc_error`, `NO_CRC` iff
`forward_crc_disabled`, everything else dropped. -/
def passesCrcFilter (pol : FwdPolicy) : RxStatus → Bool
  | .crcOk => pol.fwd_valid_pkt
  | .crcBad => pol.fwd_error_pkt
  | .noCrc => pol.fwd_nocrc_pkt
  | .other _ => false

/-- Outcome of handling one fetched packet in the upstream loop body:
`dropped` = skipped by the CRC filter (loop continues), `serialized` =
written into the datagram, `fatal` = the loop calls `exit(EXIT_FAILURE)`. -/
inductive UpOutcome
  | dropped
  | serialized
  | fatal
deriving DecidableEq

/-- Serialization outcome for one packet, lines 1643-1889.  A packet that
survives the CRC filter is serialized field by field; the LoRa datarate,
bandwidth and coderate switches and the modulation dispatch terminate the
process on any unhandled value (`exit(EXIT_FAILURE)` at lines 1787, 1806,
1835, 1860).  The `snprintf`/`bin_to_b64` failure exits cannot trigger with
the statically sized buffer and are not modelled. -/
def upPacketOutcome (pol : FwdPolicy) (p : RxPkt) : UpOutcome :=
  if (upFilterStep pol ⟨0, 0, 0, 0, 0, 0⟩ p).2 then
    match p.modulation with
    | .lora =>
      match p.datarate with
      | .other _ => .fatal
      | _ =>
        match p.bandwidth with
        | .other _ => .fatal
        | _ =>
          match p.coderate with
          | .other _ => .fatal
          | _ => .serialized
    | .fsk => .serialized
    | .other _ => .fatal
  else .dropped

/-- C3: per fetched packet, `rx_rcv` is bumped exactly once, exactly the
per-status counter matching `CRC_OK`/`CRC_BAD`/`NO_CRC` is bumped (none
for an unknown status), the packet is forwarded iff its status's forwarding
flag is set (unknown statuses never), and a forwarded packet bumps
`up_pkt_fwd` by one and `up_payload_byte` by the packet size. -/
theorem up_filter_counters_spec (pol : FwdPolicy) (m : UpMeas) (p : RxPkt) :
    (upFilterStep pol m p).1.nb_rx_rcv = u32 (m.nb_rx_rcv + 1) ∧
    (upFilterStep pol m p).2 = passesCrcFilter pol p.status ∧
    (p.status = .crcOk →
      (upFilterStep pol m p).1.nb_rx_ok = u32 (m.nb_rx_ok + 1) ∧
      (upFilterStep pol m p).1.nb_rx_bad = m.nb_rx_bad ∧
      (upFilterStep pol m p).1.nb_rx_nocrc = m.nb_rx_nocrc) ∧
    (p.status = .crcBad →
      (upFilterStep pol m p).1.nb_rx_bad = u32 (m.nb_rx_bad + 1) ∧
      (upFilterStep pol m p).1.nb_rx_ok = m.nb_rx_ok ∧
      (upFilterStep pol m p).1.nb_rx_nocrc = m.nb_rx_nocrc) ∧
    (p.status = .noCrc →
      (upFilterStep pol m p).1.nb_rx_nocrc = u32 (m.nb_rx_nocrc + 1) ∧
      (upFilterStep pol m p).1.nb_rx_ok = m.nb_rx_ok ∧
      (upFilterStep pol m p).1.nb_rx_bad = m.nb_rx_bad) ∧
    (∀ c, p.status = .other c →
      (upFilterStep pol m p).1.nb_rx_ok = m.nb_rx_ok ∧
      (upFilterStep pol m p).1.nb_rx_bad = m.nb_rx_bad ∧
      (upFilterStep pol m p).1.nb_rx_nocrc = m.nb_rx_nocrc ∧
      (upFilterStep pol m p).2 = false) ∧
    ((upFilterStep pol m p).2 = true →
      (upFilterStep pol m p).1.up_pkt_fwd = u32 (m.up_pkt_fwd + 1) ∧
      (upFilterStep pol m p).1.up_payload_byte = u32 (m.up_payload_byte + p.size)) ∧
    ((upFilterStep pol m p).2 = false →
      (upFilterStep pol m p).1.up_pkt_fwd = m.up_pkt_fwd ∧
      (upFilterStep pol m p).1.up_payload_byte = m.up_payload_byte) := by
  rcases p with ⟨st, md, dr, bw, cr, sz⟩
  cases st <;>
    simp [upFilterStep, passesCrcFilter] <;>
    rcases pol with ⟨v, e, n⟩ <;>
    cases v <;> cases e <;> cases n <;> simp

/-- Witness for C3 at a concrete CRC_OK packet under the default policy. -/
theorem up_filter_counters_spec_witness :
    (upFilterStep defaultFwdPolicy ⟨0, 0, 0, 0, 0, 0⟩
        ⟨.crcOk, .lora, .sf7, .bw125, .cr4over5, 4⟩).1.nb_rx_ok = u32 (0 + 1) ∧
    (upFilterStep defaultFwdPolicy ⟨0, 0, 0, 0, 0, 0⟩
        ⟨.crcOk, .lora, .sf7, .bw125, .cr4over5, 4⟩).1.up_payload_byte = u32 (0 + 4) := by
  refine ⟨(((up_filter_counters_spec defaultFwdPolicy ⟨0, 0, 0, 0, 0, 0⟩
      ⟨.crcOk, .lora, .sf7, .bw125, .cr4over5, 4⟩).2.2.1) rfl).1, ?_⟩
  exact ((up_filter_counters_spec defaultFwdPolicy ⟨0, 0, 0, 0, 0, 0⟩
      ⟨.crcOk, .lora, .sf7, .bw125, .cr4over5, 4⟩).2.2.2.2.2.2.1 (by decide)).2

/-- C4 counterexample: a CRC-OK packet with an unknown modulation code,
under the default forwarding policy, passes the CRC filter and then hits
the `exit(EXIT_FAILURE)` branch (line 1860): the outcome is `fatal`, not a
drop-and-continue. -/
theorem unknown_modulation_fatal_cex :
    upPacketOutcome defaultFwdPolicy ⟨.crcOk, .other 3, .sf7, .bw125, .cr4over5, 4⟩ = .fatal ∧
    upPacketOutcome defaultFwdPolicy ⟨.crcOk, .other 3, .sf7, .bw125, .cr4over5, 4⟩ ≠ .dropped := by
  decide

/-- C4 (amended): an RX packet whose modulation is neither LORA nor FSK is
dropped only when the CRC filter already drops it; when it passes the CRC
filter the upstream loop terminates the whole process (`exit(EXIT_FAILURE)`,
line 1860) instead of skipping the packet. -/
theorem unknown_modulation_fatal (pol : FwdPolicy) (p : RxPkt) (c : Nat) :
    (p.modulation = .other c →
      ((upFilterStep pol ⟨0, 0, 0, 0, 0, 0⟩ p).2 = true →
        upPacketOutcome pol p = .fatal)) ∧
    ((upFilterStep pol ⟨0, 0, 0, 0, 0, 0⟩ p).2 = false →
      upPacketOutcome pol p = .dropped) := by
  constructor
  · intro hm hf
    simp [upPacketOutcome, hf, hm]
  · intro hf
    simp [upPacketOutcome, hf]

/-- Witness for C4's amended theorem at the counterexample packet. -/
theorem unknown_modulation_fatal_witness :
    upPacketOutcome defaultFwdPolicy ⟨.crcOk, .other 3, .sf7, .bw125, .cr4over5, 4⟩ = .fatal ∧
    upPacketOutcome defaultFwdPolicy ⟨.crcBad, .other 3, .sf7, .bw125, .cr4over5, 4⟩ = .dropped := by
  exact ⟨(unknown_modulation_fatal defaultFwdPolicy
            ⟨.crcOk, .other 3, .sf7, .bw125, .cr4over5, 4⟩ 3).1 rfl (by decide),
         (unknown_modulation_fatal defaultFwdPolicy
            ⟨.crcBad, .other 3, .sf7, .bw125, .cr4over5, 4⟩ 3).2 (by decide)⟩

/-! ## Upstream acknowledgement collection (thread_up, lines 1943-1966)

After `send`, the code runs `for (i=0; i<2; ++i)` over `recv` on the
upstream socket.  A `recv` call yields either `-1` with `errno == EAGAIN`
(timeout), `-1` with another errno (socket error), or a datagram.  The
loop body: timeout → `continue`; other error → `break`; short datagram,
wrong version or wrong type → `continue`; token mismatch → `continue`;
otherwise count the PUSH_ACK and `break`.  `recvs n` is what the n-th
`recv` call would return. -/

inductive RecvResult
  | timeout
  | sockErr
  | pkt (bytes : List Nat)
deriving DecidableEq

inductive AckStep
  | stopAck
  | stopErr
  | next
deriving DecidableEq

/-- Classification of one `recv` result by the loop body (PROTOCOL_VERSION
= 1, PKT_PUSH_ACK = 1). -/
def classifyPushAck (tokH tokL : Nat) : RecvResult → AckStep
  | .timeout => .next
  | .sockErr => .stopErr
  | .pkt b =>
    if b.length < 4 ∨ b.getD 0 0 ≠ 1 ∨ b.getD 3 0 ≠ 1 then .next
    else if b.getD 1 0 ≠ tokH ∨ b.getD 2 0 ≠ tokL then .next
    else .stopAck

/-- Result of the two-round acknowledgement loop: how many `recv` calls
were made and how many times `meas_up_ack_rcv` was bumped. -/
structure AckOutcome where
  attempts : Nat
  acks : Nat
deriving DecidableEq

/-- The `for (i=0; i<2; ++i)` acknowledgement loop, lines 1944-1965. -/
def pushAckLoop (recvs : Nat → RecvResult) (tokH tokL : Nat) : AckOutcome :=
  match classifyPushAck tokH tokL (recvs 0) with
  | .stopAck => ⟨1, 1⟩
  | .stopErr => ⟨1, 0⟩
  | .next =>
    match classifyPushAck tokH tokL (recvs 1) with
    | .stopAck => ⟨2, 1⟩
    | .stopErr => ⟨2, 0⟩
    | .next => ⟨2, 0⟩

/-- A receive sequence whose first result is a timeout and whose second is
a valid matching PUSH_ACK for token (0xAB, 0xCD). -/
def timeoutThenAck : Nat → RecvResult :=
  fun n => if n = 0 then .timeout else .pkt [1, 0xAB, 0xCD, 1]

/-- C9 counterexample: the first receive times out (EAGAIN) yet the loop
does *not* stop there — the C body executes `continue`, a second `recv` is
made and the PUSH_ACK it returns is counted.  Under the claim the loop
would have stopped after one receive with no ack counted. -/
theorem push_ack_timeout_continues_cex :
    timeoutThenAck 0 = .timeout ∧
    pushAckLoop timeoutThenAck 0xAB 0xCD = ⟨2, 1⟩ ∧
    pushAckLoop timeoutThenAck 0xAB 0xCD ≠ ⟨1, 0⟩ := by
  decide

/-- C9 (amended): after a PUSH_DATA the loop makes at most two receives and
counts at most one ack; it stops after the first receive exactly when that
receive is a matching PUSH_ACK (counting it) or a non-timeout socket error;
a timeout, a short or invalid datagram, and a token mismatch are all
ignored and followed by the second receive attempt; the ack counter is
bumped exactly once iff one of the two receives is a valid matching
PUSH_ACK (with no stopping error before it). -/
theorem push_ack_loop_behavior (recvs : Nat → RecvResult) (tokH tokL : Nat) :
    (pushAckLoop recvs tokH tokL).attempts ≤ 2 ∧
    (pushAckLoop recvs tokH tokL).acks ≤ 1 ∧
    (classifyPushAck tokH tokL (recvs 0) = .stopAck →
      pushAckLoop recvs tokH tokL = ⟨1, 1⟩) ∧
    (classifyPushAck tokH tokL (recvs 0) = .stopErr →
      pushAckLoop recvs tokH tokL = ⟨1, 0⟩) ∧
    (classifyPushAck tokH tokL (recvs 0) = .next →
      (pushAckLoop recvs tokH tokL).attempts = 2 ∧
      (pushAckLoop recvs tokH tokL).acks =
        (if classifyPushAck tokH tokL (recvs 1) = .stopAck then 1 else 0)) ∧
    classifyPushAck tokH tokL .timeout = .next ∧
    (∀ b : List Nat, b.length < 4 → classifyPushAck tokH tokL (.pkt b) = .next) ∧
    (∀ b : List Nat, b.getD 1 0 ≠ tokH ∨ b.getD 2 0 ≠ tokL →
      classifyPushAck tokH tokL (.pkt b) ≠ .stopAck) := by
  refine ⟨?_, ?_, ?_, ?_, ?_, rfl, ?_, ?_⟩
  · unfold pushAckLoop
    cases classifyPushAck tokH tokL (recvs 0) <;> simp <;>
      cases classifyPushAck tokH tokL (recvs 1) <;> simp
  · unfold pushAckLoop
    cases classifyPushAck tokH tokL (recvs 0) <;> simp <;>
      cases classifyPushAck tokH tokL (recvs 1) <;> simp
  · intro h
    unfold pushAckLoop
    rw [h]
  · intro h
    unfold pushAckLoop
    rw [h]
  · intro h
    unfold pushAckLoop
    rw [h]
    cases h1 : classifyPushAck tokH tokL (recvs 1) <;> simp
  · intro b hb
    simp [classifyPushAck, hb]
  · intro b hb
    simp only [classifyPushAck]
    split
    · simp
    · simp [hb]

/-- Witness for C9's amended theorem: a matching PUSH_ACK on the first
receive stops the loop after one attempt with one ack counted. -/
theorem push_ack_loop_behavior_witness :
    pushAckLoop (fun _ => .pkt [1, 0xAB, 0xCD, 1]) 0xAB 0xCD = ⟨1, 1⟩ := by
  exact (push_ack_loop_behavior (fun _ => .pkt [1, 0xAB, 0xCD, 1]) 0xAB 0xCD).2.2.1 (by decide)

/-! ## PULL_RESP parsing and TX scheduling (thread_down, lines 2232-2518)

The JSON parser and the base64 codec are external collaborators, so the
`txpk` object is modelled as a record of already-extracted fields: a field
is `none` exactly when the corresponding `json_object_get_*` call returns
`NULL` (for `imme`, `some b` models `json_object_get_boolean` returning
1/0, `none` returning -1).  Numeric fields carry the value after the C
cast that consumes them (`tmst`/`freq` as `uint32_t`, `size` as
`uint16_t`, `fdev` in kHz after the /1000); `datrLora` is `some (sf, bw)`
exactly when `sscanf(str, "SF%2hdBW%3hd", ...)` scans both fields (a
negative scan result aborts just like an out-of-range one and is not
representable here, which only removes inputs that abort anyway); `data`
carries the bytes `b64_to_bin` writes into `txpkt.payload`. -/

structure TxpkJson where
  imme : Option Bool
  tmst : Option Nat
  time : Option Nat
  ncrc : Option Bool
  freq : Option Nat
  rfch : Option Nat
  powe : Option Int
  modu : Option String
  datrLora : Option (Nat × Nat)
  codr : Option String
  ipol : Option Bool
  prea : Option Int
  datrFsk : Option Nat
  fdev : Option Nat
  size : Option Nat
  data : Option (List Nat)

/-- GPS context read by the timing selection: the globals `gps_active` and
`gps_ref_valid`, and the composite external conversion of lines 2286-2310
(`sscanf` of the ISO string, `mktime`, `lgw_utc2cnt`): `utc2cnt s = none`
models a format error or an `lgw_utc2cnt` failure for time string `s`. -/
structure GpsCtx where
  gps_active : Bool
  gps_ref_valid : Bool
  utc2cnt : Nat → Option Nat

inductive Timing
  | immediate
  | timestamped (countUs : Nat)
deriving DecidableEq

/-- Timing-mode selection, lines 2248-2312: `"imme":true` wins, else a
present `"tmst"`, else `"time"` converted through the GPS time reference —
with the GPS-availability checks performed before the string is even
parsed; every failing branch abandons the frame (`none`). -/
def selectTiming (ctx : GpsCtx) (j : TxpkJson) : Option Timing :=
  if j.imme = some true then some .immediate
  else
    match j.tmst with
    | some t => some (.timestamped t)
    | none =>
      match j.time with
      | none => none
      | some s =>
        if ctx.gps_active then
          if ctx.gps_ref_valid then
            match ctx.utc2cnt s with
            | some c => some (.timestamped c)
            | none => none
          else none
        else none

inductive TxMode
  | immediate
  | timestamped
deriving DecidableEq

/-- The fields of `struct lgw_pkt_tx_s` that lines 2232-2517 assign
(`memset` zero-initialises the rest).  LoRa datarate/bandwidth/coderate are
kept as the validated numeric values (SF number, kHz bandwidth, coderate
denominator) rather than the abstract HAL constants they are mapped to. -/
structure TxPkt where
  tx_mode : TxMode
  count_us : Nat
  no_crc : Bool
  freq_hz : Nat
  rf_chain : Nat
  rf_power : Int
  isFsk : Bool
  sf : Nat
  bw : Nat
  codr_denom : Nat
  invert_pol : Bool
  preamble : Nat
  datr_fsk : Nat
  f_dev : Nat
  size : Nat
  payload : List Nat
deriving DecidableEq

/-- Coderate table of lines 2397-2402 ("2/3" ≡ "4/6", "1/2" ≡ "4/8"). -/
def codrDenom (s : String) : Option Nat :=
  if s = "4/5" then some 5
  else if s = "4/6" then some 6
  else if s = "2/3" then some 6
  else if s = "4/7" then some 7
  else if s = "4/8" then some 8
  else if s = "1/2" then some 8
  else none

/-- Mandatory/optional field extraction of lines 2314-2467: ncrc, freq,
rfch, powe, the modulation dispatch, and the per-modulation fields with
preamble clamping (LoRa minimum 6, default 8; FSK minimum 3, default 4).
Returns the packet with `tx_mode`/`count_us`/`size`/`payload` still at
their `memset` defaults. -/
def parseModuParams (j : TxpkJson) : Option TxPkt :=
  let ncrc := j.ncrc.getD false
  match j.freq with
  | none => none
  | some f =>
    match j.rfch with
    | none => none
    | some rfc =>
      let pw := j.powe.getD 0
      match j.modu with
      | none => none
      | some m =>
        if m = "LORA" then
          match j.datrLora with
          | none => none
          | some (sf, bw) =>
            if 7 ≤ sf ∧ sf ≤ 12 then
              if bw = 125 ∨ bw = 250 ∨ bw = 500 then
                match j.codr with
                | none => none
                | some c =>
                  match codrDenom c with
                  | none => none
                  | some cd =>
                    let ip := j.ipol.getD false
                    let pr : Nat :=
                      match j.prea with
                      | some i => if 6 ≤ i then i.toNat % 65536 else 6
                      | none => 8
                    some ⟨.immediate, 0, ncrc, f, rfc, pw, false, sf, bw, cd,
                          ip, pr, 0, 0, 0, []⟩
              else none
            else none
        else if m = "FSK" then
          match j.datrFsk with
          | none => none
          | some dr =>
            match j.fdev with
            | none => none
            | some fd =>
              let pr : Nat :=
                match j.prea with
                | some i => if 3 ≤ i then i.toNat % 65536 else 3
                | none => 4
              some ⟨.immediate, 0, ncrc, f, rfc, pw, true, 0, 0, 0,
                    false, pr, dr, fd, 0, []⟩
        else none

/-- Size and payload extraction, lines 2469-2488: both fields are
mandatory, but a mismatch between the declared size and the number of
decoded bytes is only warned about — the declared size and the decoded
bytes are both kept as they are. -/
def parseTxBody (j : TxpkJson) : Option TxPkt :=
  match parseModuParams j with
  | none => none
  | some base =>
    match j.size with
    | none => none
    | some sz =>
      match j.data with
      | none => none
      | some bytes => some { base with size := sz, payload := bytes }

/-- Whole-frame processing of one PULL_RESP body: timing selection, field
parsing, and the final `tx_mode`/`count_us` assignment of lines 2493-2498
(`sent_immediate` → IMMEDIATE, else TIMESTAMPED at the counter computed
during timing selection).  `none` means the frame was abandoned with a
warning and nothing is handed to the radio. -/
def processTxpk (ctx : GpsCtx) (j : TxpkJson) : Option TxPkt :=
  match selectTiming ctx j with
  | none => none
  | some t =>
    match parseTxBody j with
    | none => none
    | some pkt =>
      match t with
      | .immediate => some { pkt with tx_mode := .immediate, count_us := 0 }
      | .timestamped c => some { pkt with tx_mode := .timestamped, count_us := c }

/-- Downstream measurement counters (lines 192-198); all `uint32_t`. -/
structure DwMeas where
  dw_pull_sent : Nat
  dw_ack_rcv : Nat
  dw_dgram_rcv : Nat
  dw_network_byte : Nat
  dw_payload_byte : Nat
  nb_tx_ok : Nat
  nb_tx_fail : Nat
deriving DecidableEq

/-- Measurement update on a successfully parsed frame, lines 2500-2518:
`dw_dgram_rcv` + 1, `dw_network_byte` + datagram length, `dw_payload_byte`
+ declared size, then `nb_tx_ok` or `nb_tx_fail` depending on the
`lgw_send` result. -/
def dwMeasOnTx (m : DwMeas) (msgLen : Nat) (pkt : TxPkt) (sendOk : Bool) : DwMeas :=
  let m := { m with dw_dgram_rcv := u32 (m.dw_dgram_rcv + 1),
                    dw_network_byte := u32 (m.dw_network_byte + msgLen),
                    dw_payload_byte := u32 (m.dw_payload_byte + pkt.size) }
  if sendOk then { m with nb_tx_ok := u32 (m.nb_tx_ok + 1) }
  else { m with nb_tx_fail := u32 (m.nb_tx_fail + 1) }

/-- One PULL_RESP datagram end to end: an abandoned frame leaves the
counters untouched and sends nothing; a parsed frame updates the counters
and hands the packet to the radio. -/
def pullRespStep (ctx : GpsCtx) (m : DwMeas) (msgLen : Nat) (j : TxpkJson)
    (sendOk : Bool) : DwMeas × Option TxPkt :=
  match processTxpk ctx j with
  | none => (m, none)
  | some pkt => (dwMeasOnTx m msgLen pkt sendOk, some pkt)

/-- Helper: `"imme":true` short-circuits the timing selection. -/
theorem selectTiming_imme (ctx : GpsCtx) (j : TxpkJson) (h : j.imme = some true) :
    selectTiming ctx j = some .immediate := by
  simp [selectTiming, h]

/-- Helper: a parsed body carries the declared size and the decoded bytes. -/
theorem parseTxBody_fields (j : TxpkJson) (pkt : TxPkt)
    (h : parseTxBody j = some pkt) :
    pkt.size = j.size.getD 0 ∧ pkt.payload = j.data.getD [] := by
  unfold parseTxBody at h
  cases hm : parseModuParams j with
  | none => rw [hm] at h; simp at h
  | some base =>
    rw [hm] at h
    cases hs : j.size with
    | none => rw [hs] at h; simp at h
    | some sz =>
      rw [hs] at h
      cases hd : j.data with
      | none => rw [hd] at h; simp at h
      | some bytes =>
        rw [hd] at h
        simp only [Option.some.injEq] at h
        subst h
        simp

/-- Helper: a fully parsed frame carries the declared size and the decoded
bytes through to the packet handed to the radio. -/
theorem processTxpk_fields (ctx : GpsCtx) (j : TxpkJson) (pkt : TxPkt)
    (h : processTxpk ctx j = some pkt) :
    pkt.size = j.size.getD 0 ∧ pkt.payload = j.data.getD [] := by
  unfold processTxpk at h
  cases hsel : selectTiming ctx j with
  | none => rw [hsel] at h; simp at h
  | some t =>
    rw [hsel] at h
    cases hb : parseTxBody j with
    | none => rw [hb] at h; simp at h
    | some base =>
      rw [hb] at h
      have hf := parseTxBody_fields j base hb
      cases t with
      | immediate =>
        simp only [Option.some.injEq] at h
        subst h
        simpa using hf
      | timestamped c =>
        simp only [Option.some.injEq] at h
        subst h
        simpa using hf

/-- C5: timing-mode priority in PULL_RESP parsing: `"imme":true` yields
IMMEDIATE; otherwise a present `"tmst"` yields TIMESTAMPED at that counter;
otherwise a present `"time"` with GPS active and a valid time reference
yields TIMESTAMPED at the counter produced by the GPS conversion (and an
unconvertible string aborts); a present `"time"` with GPS inactive or the
time reference invalid aborts the frame — nothing is handed to the radio
and the downstream counters (in particular `dw_dgram_rcv`) are untouched;
with no timing field at all the frame aborts too. -/
theorem pull_resp_timing_priority (ctx : GpsCtx) (j : TxpkJson) (m : DwMeas)
    (len : Nat) (ok : Bool) :
    (j.imme = some true → selectTiming ctx j = some .immediate) ∧
    (∀ t, j.imme ≠ some true → j.tmst = some t →
      selectTiming ctx j = some (.timestamped t)) ∧
    (∀ s, j.imme ≠ some true → j.tmst = none → j.time = some s →
      ctx.gps_active = false ∨ ctx.gps_ref_valid = false →
      selectTiming ctx j = none ∧ processTxpk ctx j = none ∧
      pullRespStep ctx m len j ok = (m, none)) ∧
    (∀ s c, j.imme ≠ some true → j.tmst = none → j.time = some s →
      ctx.gps_active = true → ctx.gps_ref_valid = true → ctx.utc2cnt s = some c →
      selectTiming ctx j = some (.timestamped c)) ∧
    (∀ s, j.imme ≠ some true → j.tmst = none → j.time = some s →
      ctx.gps_active = true → ctx.gps_ref_valid = true → ctx.utc2cnt s = none →
      selectTiming ctx j = none) ∧
    (j.imme ≠ some true → j.tmst = none → j.time = none →
      selectTiming ctx j = none) := by
  refine ⟨fun h => selectTiming_imme ctx j h, ?_, ?_, ?_, ?_, ?_⟩
  · intro t h1 h2
    simp [selectTiming, h1, h2]
  · intro s h1 h2 h3 h4
    have hsel : selectTiming ctx j = none := by
      rcases h4 with h4 | h4 <;> simp [selectTiming, h1, h2, h3, h4]
    exact ⟨hsel, by simp [processTxpk, hsel], by simp [pullRespStep, processTxpk, hsel]⟩
  · intro s c h1 h2 h3 h4 h5 h6
    simp [selectTiming, h1, h2, h3, h4, h5, h6]
  · intro s h1 h2 h3 h4 h5 h6
    simp [selectTiming, h1, h2, h3, h4, h5, h6]
  · intro h1 h2 h3
    simp [selectTiming, h1, h2, h3]

/-- Concrete GPS context with GPS disabled. -/
def ctx0 : GpsCtx := ⟨false, false, fun _ => none⟩

/-- Scenario: txpk with `"imme":true`, LoRa SF9BW125, codr 4/5, size 5,
data decoding to "hello". -/
def j4 : TxpkJson :=
  ⟨some true, none, none, none, some 869525000, some 0, some 14, some "LORA",
   some (9, 125), some "4/5", none, none, none, none, some 5,
   some [104, 101, 108, 108, 111]⟩

/-- The packet the code hands to the radio for `j4`. -/
def pkt4 : TxPkt :=
  ⟨.immediate, 0, false, 869525000, 0, 14, false, 9, 125, 5, false, 8, 0, 0, 5,
   [104, 101, 108, 108, 111]⟩

/-- Variant of `j4` scheduled on a concentrator counter. -/
def jTmst : TxpkJson := { j4 with imme := none, tmst := some 3512348611 }

/-- Variant of `j4` scheduled on a UTC time string (abstract id 17). -/
def jTime : TxpkJson := { j4 with imme := none, tmst := none, time := some 17 }

/-- Zeroed downstream counters. -/
def m0dw : DwMeas := ⟨0, 0, 0, 0, 0, 0, 0⟩

/-- Concrete GPS context with GPS active, a valid reference, and a
conversion sending every time string to counter 42. -/
def ctx1 : GpsCtx := ⟨true, true, fun _ => some 42⟩

/-- Witness for C5: immediate, timestamped, GPS-converted-time and
GPS-less-time frames at concrete inputs. -/
theorem pull_resp_timing_priority_witness :
    selectTiming ctx0 j4 = some .immediate ∧
    selectTiming ctx0 jTmst = some (.timestamped 3512348611) ∧
    pullRespStep ctx0 m0dw 100 jTime false = (m0dw, none) ∧
    selectTiming ctx1 jTime = some (.timestamped 42) := by
  refine ⟨(pull_resp_timing_priority ctx0 j4 m0dw 100 false).1 rfl,
          (pull_resp_timing_priority ctx0 jTmst m0dw 100 false).2.1 3512348611
            (by decide) rfl,
          ((pull_resp_timing_priority ctx0 jTime m0dw 100 false).2.2.1 17
            (by decide) rfl rfl (Or.inl rfl)).2.2,
          (pull_resp_timing_priority ctx1 jTime m0dw 100 false).2.2.2.1 17 42
            (by decide) rfl rfl rfl rfl rfl⟩

/-- C6: whenever a PULL_RESP frame is handed to the radio within the same
loop iteration, an `"imme":true` frame goes out with `tx_mode = IMMEDIATE`
(and zero counter), and the payload bytes are exactly the base64-decoded
`data` field (the declared size likewise flows through). -/
theorem pull_resp_imme_roundtrip (ctx : GpsCtx) (j : TxpkJson) (pkt : TxPkt)
    (h : processTxpk ctx j = some pkt) :
    (j.imme = some true → pkt.tx_mode = .immediate ∧ pkt.count_us = 0) ∧
    (∀ bytes, j.data = some bytes → pkt.payload = bytes) ∧
    (∀ sz, j.size = some sz → pkt.size = sz) := by
  have hf := processTxpk_fields ctx j pkt h
  refine ⟨?_, ?_, ?_⟩
  · intro him
    unfold processTxpk at h
    have hsel := selectTiming_imme ctx j him
    rw [hsel] at h
    cases hb : parseTxBody j with
    | none => rw [hb] at h; simp at h
    | some base =>
      rw [hb] at h
      simp only [Option.some.injEq] at h
      subst h
      simp
  · intro bytes hd
    rw [hd] at hf
    simpa using hf.2
  · intro sz hs
    rw [hs] at hf
    simpa using hf.1

/-- Witness for C6 at the concrete scenario `j4`: the radio receives an
IMMEDIATE packet whose payload is the decoded "hello". -/
theorem pull_resp_imme_roundtrip_witness :
    pkt4.tx_mode = .immediate ∧ pkt4.payload = [104, 101, 108, 108, 111] := by
  have h : processTxpk ctx0 j4 = some pkt4 := by decide
  exact ⟨((pull_resp_imme_roundtrip ctx0 j4 pkt4 h).1 rfl).1,
         (pull_resp_imme_roundtrip ctx0 j4 pkt4 h).2.1 [104, 101, 108, 108, 111] rfl⟩

/-- Helper: the parse outcome (frame accepted or abandoned) never depends
on the bytes the base64 decoder produced. -/
theorem processTxpk_data_irrelevant (ctx : GpsCtx) (j : TxpkJson)
    (b1 b2 : List Nat) :
    (processTxpk ctx { j with data := some b1 }).isSome =
      (processTxpk ctx { j with data := some b2 }).isSome := by
  have h1 : selectTiming ctx { j with data := some b1 } = selectTiming ctx j := rfl
  have h2 : selectTiming ctx { j with data := some b2 } = selectTiming ctx j := rfl
  have h3 : parseModuParams { j with data := some b1 } = parseModuParams j := rfl
  have h4 : parseModuParams { j with data := some b2 } = parseModuParams j := rfl
  have h5 : ({ j with data := some b1 } : TxpkJson).size = j.size := rfl
  have h6 : ({ j with data := some b2 } : TxpkJson).size = j.size := rfl
  have h7 : ({ j with data := some b1 } : TxpkJson).data = some b1 := rfl
  have h8 : ({ j with data := some b2 } : TxpkJson).data = some b2 := rfl
  unfold processTxpk parseTxBody
  rw [h1, h2, h3, h4, h5, h6, h7, h8]
  cases ht : selectTiming ctx j with
  | none => simp
  | some t =>
    cases hm : parseModuParams j with
    | none => cases t <;> simp
    | some base =>
      cases hs : j.size with
      | none => cases t <;> simp
      | some sz => cases t <;> simp

/-- C10: a mismatch between the decoded byte count and the declared
`txpk.size` does not reject the frame: acceptance is independent of the
decoded bytes, the packet is submitted with `size` taken from the JSON
field and the decoded bytes as payload, and `dw_payload_byte` grows by the
declared size (not the decoded length). -/
theorem size_mismatch_warning_only (ctx : GpsCtx) (j : TxpkJson) (pkt : TxPkt)
    (m : DwMeas) (len : Nat) (ok : Bool) (sz : Nat) (bytes b2 : List Nat) :
    (processTxpk ctx j = some pkt → j.size = some sz → j.data = some bytes →
      pkt.size = sz ∧ pkt.payload = bytes ∧
      (dwMeasOnTx m len pkt ok).dw_dgram_rcv = u32 (m.dw_dgram_rcv + 1) ∧
      (dwMeasOnTx m len pkt ok).dw_payload_byte = u32 (m.dw_payload_byte + sz)) ∧
    (processTxpk ctx { j with data := some bytes }).isSome =
      (processTxpk ctx { j with data := some b2 }).isSome := by
  constructor
  · intro h hs hd
    have hf := processTxpk_fields ctx j pkt h
    rw [hs, hd] at hf
    simp only [Option.getD_some] at hf
    refine ⟨hf.1, hf.2, ?_, ?_⟩
    · cases ok <;> simp [dwMeasOnTx]
    · cases ok <;> simp [dwMeasOnTx, hf.1]
  · exact processTxpk_data_irrelevant ctx j bytes b2

/-- Scenario for C10: declared size 5 but only 3 decoded bytes. -/
def j10 : TxpkJson := { j4 with data := some [1, 2, 3] }

/-- The packet the code hands to the radio for `j10`. -/
def pkt10 : TxPkt :=
  ⟨.immediate, 0, false, 869525000, 0, 14, false, 9, 125, 5, false, 8, 0, 0, 5,
   [1, 2, 3]⟩

/-- Witness for C10: the mismatched frame is still accepted, keeps the
declared size 5 with the 3 decoded bytes, and bumps `dw_payload_byte` by
the declared 5. -/
theorem size_mismatch_warning_only_witness :
    ([1, 2, 3] : List Nat).length ≠ 5 ∧
    pkt10.size = 5 ∧ pkt10.payload = [1, 2, 3] ∧
    (dwMeasOnTx m0dw 100 pkt10 true).dw_payload_byte = u32 (m0dw.dw_payload_byte + 5) := by
  have h : processTxpk ctx0 j10 = some pkt10 := by decide
  have hmain := (size_mismatch_warning_only ctx0 j10 pkt10 m0dw 100 true 5
    [1, 2, 3] [1, 2, 3]).1 h rfl rfl
  exact ⟨by decide, hmain.1, hmain.2.1, hmain.2.2.2⟩

/-! ## Auto-quit bookkeeping in the downstream loop (lines 2090-2220)

The per-server downstream loop state the auto-quit feature reads and
writes: `autoquit_cnt` (uint32, line 2018), `req_ack` (line 1997), the
global `exit_sig`, and `meas_dw_ack_rcv`.  The loop produces a sequence of
events: `loopHead` is the check at lines 2093-2097 (request shutdown iff
the threshold is positive and reached), `pullSend` is the PULL_DATA send
at lines 2106-2112 (`req_ack = false`, `autoquit_cnt++`), `ackMatch` is a
PULL_ACK with the current token at lines 2205-2215 (first one per session:
`req_ack = true`, `autoquit_cnt = 0`, `dw_ack_rcv++`; duplicates change
nothing), `ackMismatch` is an out-of-sync PULL_ACK (line 2217, no state
change). -/

inductive DownEvent
  | loopHead
  | pullSend
  | ackMatch
  | ackMismatch
deriving DecidableEq

structure DownState where
  autoquit_cnt : Nat
  req_ack : Bool
  exitReq : Bool
  dw_ack_rcv : Nat
deriving DecidableEq

/-- Thread-start state: counter zero, no outstanding ack, no shutdown. -/
def downInit : DownState := ⟨0, false, false, 0⟩

def downStep (thr : Nat) (s : DownState) : DownEvent → DownState
  | .loopHead =>
    if 0 < thr ∧ thr ≤ s.autoquit_cnt then { s with exitReq := true } else s
  | .pullSend =>
    { s with autoquit_cnt := u32 (s.autoquit_cnt + 1), req_ack := false }
  | .ackMatch =>
    if s.req_ack then s
    else { s with req_ack := true, autoquit_cnt := 0,
                  dw_ack_rcv := u32 (s.dw_ack_rcv + 1) }
  | .ackMismatch => s

def runDown (thr : Nat) (tr : List DownEvent) : DownState :=
  tr.foldl (downStep thr) downInit

/-- Specification-side count: the number of PULL_DATA sends since the most
recent matching PULL_ACK (the whole trace if none). -/
def suffixPullCount (tr : List DownEvent) : Nat :=
  tr.foldl
    (fun n e =>
      match e with
      | DownEvent.pullSend => n + 1
      | DownEvent.ackMatch => 0
      | _ => n) 0

/-- Specification-side shutdown condition: some loop-head check happened at
a moment when the threshold was positive and at least `thr` PULL_DATA had
been sent since the last matching PULL_ACK. -/
def ExitSpec (thr : Nat) (tr : List DownEvent) : Prop :=
  ∃ p q, tr = p ++ DownEvent.loopHead :: q ∧ 0 < thr ∧
    thr ≤ u32 (suffixPullCount p)

theorem suffixPullCount_loopHead (tr : List DownEvent) :
    suffixPullCount (tr ++ [DownEvent.loopHead]) = suffixPullCount tr := by
  simp [suffixPullCount, List.foldl_append]

theorem suffixPullCount_pullSend (tr : List DownEvent) :
    suffixPullCount (tr ++ [DownEvent.pullSend]) = suffixPullCount tr + 1 := by
  simp [suffixPullCount, List.foldl_append]

theorem suffixPullCount_ackMatch (tr : List DownEvent) :
    suffixPullCount (tr ++ [DownEvent.ackMatch]) = 0 := by
  simp [suffixPullCount, List.foldl_append]

theorem suffixPullCount_ackMismatch (tr : List DownEvent) :
    suffixPullCount (tr ++ [DownEvent.ackMismatch]) = suffixPullCount tr := by
  simp [suffixPullCount, List.foldl_append]

theorem exitSpec_append (thr : Nat) (tr : List DownEvent) (e : DownEvent) :
    ExitSpec thr (tr ++ [e]) ↔
      ExitSpec thr tr ∨
        (e = DownEvent.loopHead ∧ 0 < thr ∧ thr ≤ u32 (suffixPullCount tr)) := by
  constructor
  · rintro ⟨p, q, hpq, hthr, hcnt⟩
    rcases List.eq_nil_or_concat q with rfl | ⟨q', e', rfl⟩
    · obtain ⟨hp, he⟩ := List.append_inj' hpq rfl
      subst hp
      have he' : e = DownEvent.loopHead := by simpa using he
      exact Or.inr ⟨he', hthr, hcnt⟩
    · rw [List.concat_eq_append] at hpq
      have hre : p ++ DownEvent.loopHead :: (q' ++ [e']) =
          (p ++ DownEvent.loopHead :: q') ++ [e'] := by simp
      rw [hre] at hpq
      obtain ⟨hp, -⟩ := List.append_inj' hpq rfl
      exact Or.inl ⟨p, q', hp, hthr, hcnt⟩
  · rintro (⟨p, q, hpq, hthr, hcnt⟩ | ⟨rfl, hthr, hcnt⟩)
    · exact ⟨p, q ++ [e], by rw [hpq]; simp, hthr, hcnt⟩
    · exact ⟨tr, [], rfl, hthr, hcnt⟩

/-- C7: along every event trace of the downstream loop, the
unacknowledged-PULL_DATA counter equals the (uint32-reduced) number of
PULL_DATA sends since the last matching PULL_ACK — so any matching
PULL_ACK resets it to zero — and global shutdown has been requested
exactly when some loop-head check found a positive `autoquit_threshold`
reached by that count: after `autoquit_threshold` consecutive
unacknowledged PULL_DATA, and never before. -/
theorem autoquit_exact_threshold (thr : Nat) (tr : List DownEvent) :
    (runDown thr tr).autoquit_cnt = u32 (suffixPullCount tr) ∧
    ((runDown thr tr).req_ack = true → (runDown thr tr).autoquit_cnt = 0) ∧
    ((runDown thr tr).exitReq = true ↔ ExitSpec thr tr) := by
  induction tr using List.reverseRecOn with
  | nil =>
    refine ⟨rfl, fun h => by simp [runDown, downInit] at h, ?_, ?_⟩
    · intro h
      simp [runDown, downInit] at h
    · rintro ⟨p, q, hpq, -, -⟩
      exact absurd hpq (by simp)
  | append_singleton tr e ih =>
    obtain ⟨ih1, ih2, ih3⟩ := ih
    have hrun : runDown thr (tr ++ [e]) = downStep thr (runDown thr tr) e := by
      simp [runDown, List.foldl_append]
    rw [hrun]
    cases e with
    | loopHead =>
      rw [suffixPullCount_loopHead]
      by_cases hc : 0 < thr ∧ thr ≤ (runDown thr tr).autoquit_cnt
      · have hstep : downStep thr (runDown thr tr) DownEvent.loopHead =
            { runDown thr tr with exitReq := true } := by
          simp [downStep, hc]
        rw [hstep]
        refine ⟨ih1, fun h => ih2 h, ?_, ?_⟩
        · intro _
          refine (exitSpec_append thr tr DownEvent.loopHead).2 (Or.inr ⟨rfl, hc.1, ?_⟩)
          rw [← ih1]
          exact hc.2
        · intro _
          rfl
      · have hstep : downStep thr (runDown thr tr) DownEvent.loopHead =
            runDown thr tr := by
          simp [downStep, hc]
        rw [hstep]
        refine ⟨ih1, ih2, ?_⟩
        rw [ih3, exitSpec_append]
        constructor
        · exact Or.inl
        · rintro (h | ⟨-, hthr, hcnt⟩)
          · exact h
          · refine absurd ⟨hthr, ?_⟩ hc
            rw [ih1]
            exact hcnt
    | pullSend =>
      have hstep : downStep thr (runDown thr tr) DownEvent.pullSend =
          { runDown thr tr with
              autoquit_cnt := u32 ((runDown thr tr).autoquit_cnt + 1),
              req_ack := false } := rfl
      rw [hstep, suffixPullCount_pullSend]
      refine ⟨?_, ?_, ?_⟩
      · show u32 ((runDown thr tr).autoquit_cnt + 1) = u32 (suffixPullCount tr + 1)
        rw [ih1]
        exact Nat.mod_add_mod _ _ _
      · intro h
        exact absurd h (by simp)
      · show (runDown thr tr).exitReq = true ↔ _
        rw [ih3, exitSpec_append]
        simp
    | ackMatch =>
      rw [suffixPullCount_ackMatch]
      by_cases hr : (runDown thr tr).req_ack
      · have hstep : downStep thr (runDown thr tr) DownEvent.ackMatch =
            runDown thr tr := by
          simp [downStep, hr]
        rw [hstep]
        refine ⟨?_, fun _ => ih2 hr, ?_⟩
        · rw [ih2 hr]
          simp [u32]
        · rw [ih3, exitSpec_append]
          simp
      · have hstep : downStep thr (runDown thr tr) DownEvent.ackMatch =
            { runDown thr tr with req_ack := true, autoquit_cnt := 0,
                                  dw_ack_rcv := u32 ((runDown thr tr).dw_ack_rcv + 1) } := by
          simp [downStep, hr]
        rw [hstep]
        refine ⟨by simp [u32], fun _ => rfl, ?_⟩
        show (runDown thr tr).exitReq = true ↔ _
        rw [ih3, exitSpec_append]
        simp
    | ackMismatch =>
      have hstep : downStep thr (runDown thr tr) DownEvent.ackMismatch =
          runDown thr tr := rfl
      rw [hstep, suffixPullCount_ackMismatch]
      refine ⟨ih1, ih2, ?_⟩
      rw [ih3, exitSpec_append]
      simp

/-! ## Validator thread and XTAL correction (thread_valid, lines 2621-2700)

State touched by one one-second iteration of `thread_valid`: the global
`gps_ref_valid`, the pair `xtal_correct_ok`/`xtal_correct` (initial values
false/1.0, lines 160-161), and the thread-local averaging state `init_cpt`
and `init_acc` (lines 2629-2630).  The C `double` arithmetic is modelled
over ℚ; the claims proved below depend only on the exact constants (the
reset to 1.0), never on rounding.  The inputs of an iteration are the
reference age `difftime(time(NULL), systime)` (an integer once cast to
`long`) and the current `xtal_err` sample, read only when the reference is
fresh.  `GPS_REF_MAX_AGE = 30`, `XERR_INIT_AVG = 128`,
`XERR_FILT_COEF = 256` (lines 95, 101-102). -/

structure ValidState where
  gps_ref_valid : Bool
  xtal_correct_ok : Bool
  xtal_correct : ℚ
  init_cpt : Nat
  init_acc : ℚ
deriving DecidableEq

/-- Boot state: reference invalid (line 170 default), correction 1.0 and
not ok (lines 160-161), averaging state zeroed (lines 2629-2630). -/
def validBoot : ValidState := ⟨false, false, 1, 0, 0⟩

/-- One iteration of the `thread_valid` main loop, lines 2648-2696. -/
def threadValidStep (s : ValidState) (age : Int) (xtalErr : ℚ) : ValidState :=
  if 0 ≤ age ∧ age ≤ 30 then
    let s := { s with gps_ref_valid := true }
    if s.init_cpt < 128 then
      { s with init_acc := s.init_acc + xtalErr, init_cpt := s.init_cpt + 1 }
    else if s.init_cpt = 128 then
      { s with xtal_correct := 128 / s.init_acc, xtal_correct_ok := true,
               init_cpt := s.init_cpt + 1 }
    else
      { s with xtal_correct := s.xtal_correct - s.xtal_correct / 256 + (1 / xtalErr) / 256 }
  else
    { s with gps_ref_valid := false, xtal_correct_ok := false, xtal_correct := 1,
             init_cpt := 0, init_acc := 0 }

def runValid (inputs : List (Int × ℚ)) : ValidState :=
  inputs.foldl (fun s i => threadValidStep s i.1 i.2) validBoot

/-- Helper invariant: from boot, once past the initial averaging the
correction has been marked ok, and whenever the correction is not ok its
value is exactly 1.0. -/
theorem runValid_invariant (inputs : List (Int × ℚ)) :
    (128 < (runValid inputs).init_cpt → (runValid inputs).xtal_correct_ok = true) ∧
    ((runValid inputs).xtal_correct_ok = false → (runValid inputs).xtal_correct = 1) := by
  induction inputs using List.reverseRecOn with
  | nil =>
    refine ⟨fun h => ?_, fun _ => rfl⟩
    simp [runValid, validBoot] at h
  | append_singleton inputs i ih =>
    obtain ⟨ih1, ih2⟩ := ih
    have hrun : runValid (inputs ++ [i]) =
        threadValidStep (runValid inputs) i.1 i.2 := by
      simp [runValid, List.foldl_append]
    rw [hrun]
    unfold threadValidStep
    by_cases hage : 0 ≤ i.1 ∧ i.1 ≤ 30
    · rw [if_pos hage]
      by_cases h1 : (runValid inputs).init_cpt < 128
      · simp only [h1, if_pos]
        refine ⟨fun h => ?_, fun h => ih2 h⟩
        simp only at h
        omega
      · rw [if_neg (by simpa using h1)]
        by_cases h2 : (runValid inputs).init_cpt = 128
        · rw [if_pos (by simpa using h2)]
          exact ⟨fun _ => rfl, fun h => by simp at h⟩
        · rw [if_neg (by simpa using h2)]
          have hgt : 128 < (runValid inputs).init_cpt := by omega
          refine ⟨fun _ => ih1 hgt, fun h => ?_⟩
          have := ih1 hgt
          simp only at h
          rw [this] at h
          exact absurd h (by simp)
    · rw [if_neg hage]
      exact ⟨fun h => by simp at h, fun _ => rfl⟩

/-- C8: an iteration of the validator that finds the time reference older
than GPS_REF_MAX_AGE = 30 seconds marks the reference invalid and
simultaneously resets the oscillator correction to 1.0 with valid = false
and restarts the initial-averaging state; and along every run from boot,
`xtal_correct_ok = false` implies `xtal_correct = 1.0`. -/
theorem timeref_expiry_resets_xtal (s : ValidState) (age : Int) (err : ℚ)
    (inputs : List (Int × ℚ)) :
    (30 < age →
      (threadValidStep s age err).gps_ref_valid = false ∧
      (threadValidStep s age err).xtal_correct_ok = false ∧
      (threadValidStep s age err).xtal_correct = 1 ∧
      (threadValidStep s age err).init_cpt = 0 ∧
      (threadValidStep s age err).init_acc = 0) ∧
    ((runValid inputs).xtal_correct_ok = false → (runValid inputs).xtal_correct = 1) := by
  constructor
  · intro hage
    have hcond : ¬(0 ≤ age ∧ age ≤ 30) := by omega
    unfold threadValidStep
    rw [if_neg hcond]
    exact ⟨rfl, rfl, rfl, rfl, rfl⟩
  · exact (runValid_invariant inputs).2

/-- Witness for C8: one stale iteration (age 31) from boot resets
everything, and at boot the not-ok correction is 1.0. -/
theorem timeref_expiry_resets_xtal_witness :
    (threadValidStep validBoot 31 2).gps_ref_valid = false ∧
    (threadValidStep validBoot 31 2).xtal_correct = 1 ∧
    (runValid []).xtal_correct = 1 := by
  refine ⟨((timeref_expiry_resets_xtal validBoot 31 2 []).1 (by decide)).1,
          ((timeref_expiry_resets_xtal validBoot 31 2 []).1 (by decide)).2.2.1,
          (timeref_expiry_resets_xtal validBoot 31 2 []).2 rfl⟩

/-- Witness for C7: with threshold 2, the trace head-send-head-send-head
requests shutdown at the third loop head, and a matching PULL_ACK resets
the consecutive count to zero. -/
theorem autoquit_exact_threshold_witness :
    (runDown 2 [DownEvent.loopHead, DownEvent.pullSend, DownEvent.loopHead,
        DownEvent.pullSend, DownEvent.loopHead]).exitReq = true ∧
    (runDown 2 [DownEvent.pullSend, DownEvent.ackMatch]).autoquit_cnt = 0 := by
  constructor
  · exact (autoquit_exact_threshold 2 [DownEvent.loopHead, DownEvent.pullSend,
      DownEvent.loopHead, DownEvent.pullSend, DownEvent.loopHead]).2.2.mpr
      ⟨[DownEvent.loopHead, DownEvent.pullSend, DownEvent.loopHead, DownEvent.pullSend],
       [], rfl, by decide, by decide⟩
  · exact (autoquit_exact_threshold 2 [DownEvent.pullSend, DownEvent.ackMatch]).1.trans
      (by decide)
